import Mathlib

/-!
Shallow embedding of the tempcloud backend worker (backend/src/index.ts,
backend/src/crypto.ts, backend/src/types.ts).

The worker is a set of HTTP route handlers over two external stores:
a key-value metadata store (Cloudflare KV, `FILE_KV`) and a blob store
(Cloudflare R2, `R2_BUCKET`).  Each route handler is embedded as a pure
Lean function from the request data, an explicit current time `now`
(`Math.floor(Date.now() / 1000)` in the source), and the current store
contents to a result, the new store contents and the ordered list of
store mutations the handler performed.

Conventions of the embedding:
- JS numbers that the code only ever treats as integers (sizes, unix
  seconds, download counters) are `Int`.
- KV values are the parsed `FileMetadata` records; the JSON codec is
  the identity in the model (`JSON.parse ∘ JSON.stringify`).
- The blob store maps keys to the object size, which is all the code
  observes of a blob (`head().size` / presence of `get()`).
- Error responses carry the machine-readable `code` string and the HTTP
  status from the source; the human-readable message text is not modelled.
- JS truthiness of the untyped request fields is modelled field by field:
  `!s` on a string is `s = ""` (absent fields are `Option.none`), `!n` on
  a number is `n = 0`, `a || b` on strings takes `b` when `a` is empty.
- `crypto.subtle.digest("SHA-256", ·)` is an external platform primitive;
  it is a parameter `digest : List Nat → List Nat` of the crypto
  functions (byte list in, byte list out).  `TextEncoder().encode` and
  the hex rendering around it are modelled concretely.
-/

/-! ### Crypto helpers (backend/src/crypto.ts) -/

/-- UTF-8 encoding of a single code point, as a list of byte values. -/
def utf8EncodeCodepoint (c : Nat) : List Nat :=
  if c < 128 then [c]
  else if c < 2048 then [192 + c / 64, 128 + c % 64]
  else if c < 65536 then [224 + c / 4096, 128 + c / 64 % 64, 128 + c % 64]
  else [240 + c / 262144, 128 + c / 4096 % 64, 128 + c / 64 % 64, 128 + c % 64]

/-- Model of `new TextEncoder().encode(s)`: the UTF-8 bytes of `s`. -/
def utf8Encode (s : String) : List Nat :=
  (s.data.map (fun c => utf8EncodeCodepoint c.toNat)).flatten

/-- Model of `b.toString(16).padStart(2, "0")` for a byte value `b`. -/
def hexByte (b : Nat) : String :=
  let s := String.mk (Nat.toDigits 16 b)
  if s.length < 2 then "0" ++ s else s

/-- `hashPassword` (crypto.ts line 11): UTF-8 encode, digest, render each
byte as two lowercase hex digits, join.  `digest` stands for the external
`crypto.subtle.digest("SHA-256", ·)` primitive. -/
def hashPassword (digest : List Nat → List Nat) (password : String) : String :=
  String.join ((digest (utf8Encode password)).map hexByte)

/-- `verifyPassword` (crypto.ts line 20): recompute the hash of the
supplied password and compare with the stored hash (`hash === storedHash`). -/
def verifyPassword (digest : List Nat → List Nat)
    (password storedHash : String) : Bool :=
  hashPassword digest password == storedHash

/-! ### Data model (backend/src/types.ts) -/

/-- `FileMetadata` (types.ts line 39): the sole persistent record.
`downloads_left = none` means unlimited; `password_hash = none` means no
password. -/
structure FileMetadata where
  filename : String
  size : Int
  mime : String
  uploaded_at : Int
  expires_at : Int
  downloads_left : Option Int
  password_hash : Option String
  r2_key : String
deriving DecidableEq, Repr

/-- `UploadInitRequest` (types.ts line 51).  Optional fields are `Option`;
`filename` and `size` are declared required but arrive from untyped JSON,
so their JS-falsy values ("" and 0) are representable. -/
structure UploadInitRequest where
  filename : String
  size : Int
  mime : Option String := none
  expires_in : Option Int := none
  max_downloads : Option Int := none
  password : Option String := none
deriving DecidableEq, Repr

/-- The environment bindings the handlers read (types.ts line 28), with
the numeric ones already through `parseInt(·, 10)`. -/
structure EnvCfg where
  base_url : String
  presigned_url_ttl : Int
  default_file_ttl : Int
  max_file_size : Int
deriving DecidableEq, Repr

/-! ### The two stores -/

/-- The metadata store: association list from KV key to parsed record. -/
abbrev KVStore := List (String × FileMetadata)

/-- `FILE_KV.get`. -/
def kvLookup (s : KVStore) (k : String) : Option FileMetadata :=
  match s with
  | [] => none
  | (k', v) :: rest => if k' = k then some v else kvLookup rest k

/-- `FILE_KV.put` (the TTL option is recorded in the operation trace,
not in the store contents). -/
def kvInsert (s : KVStore) (k : String) (v : FileMetadata) : KVStore :=
  (k, v) :: s.filter (fun p => p.1 != k)

/-- `FILE_KV.delete`. -/
def kvErase (s : KVStore) (k : String) : KVStore :=
  s.filter (fun p => p.1 != k)

/-- The blob store: association list from R2 key to the object size. -/
abbrev R2Store := List (String × Int)

/-- `R2_BUCKET.head` (and presence for `R2_BUCKET.get`): the object size
when the key is present. -/
def r2Head (s : R2Store) (k : String) : Option Int :=
  match s with
  | [] => none
  | (k', v) :: rest => if k' = k then some v else r2Head rest k

/-- `R2_BUCKET.delete`. -/
def r2Erase (s : R2Store) (k : String) : R2Store :=
  s.filter (fun p => p.1 != k)

/-- The combined mutable state the handlers act on. -/
structure Stores where
  kv : KVStore
  r2 : R2Store
deriving DecidableEq, Repr

/-- One store mutation, in the order the handler issues them.  KV puts
record the `expirationTtl` passed to the store. -/
inductive StoreOp where
  | kvPut (key : String) (m : FileMetadata) (ttl : Int)
  | kvDelete (key : String)
  | r2Delete (key : String)
deriving DecidableEq, Repr

/-- Result, post-state and mutation trace of one handler invocation. -/
structure Outcome (ρ : Type) where
  result : ρ
  stores : Stores
  ops : List StoreOp
deriving DecidableEq, Repr

/-! ### Route results -/

/-- Responses of `POST /api/v1/upload/init`. -/
inductive InitResult where
  | err (code : String) (status : Nat)
  | ok (upload_url : String) (file_uuid : String) (expires_at : Int)
deriving DecidableEq, Repr

/-- Responses of `POST /api/v1/upload/finalize`. -/
inductive FinalizeResult where
  | err (code : String) (status : Nat)
  | ok (download_link : String)
deriving DecidableEq, Repr

/-- Successful body of `GET /api/v1/file/:uuid/info`
(`FileInfoResponse`, types.ts line 79). -/
structure FileInfoResponse where
  filename : String
  size : Int
  mime : String
  uploaded_at : Int
  expires_at : Int
  downloads_left : Option Int
  has_password : Bool
deriving DecidableEq, Repr

/-- Responses of `GET /api/v1/file/:uuid/info`. -/
inductive InfoResult where
  | err (code : String) (status : Nat)
  | ok (v : FileInfoResponse)
deriving DecidableEq, Repr

/-- Responses of `GET /api/v1/file/:uuid/download`: a streamed file is
represented by the header data the handler sets plus the
last-download flag the handler computed. -/
inductive DlResult where
  | err (code : String) (status : Nat)
  | file (filename : String) (size : Int) (mime : String) (isFinalDownload : Bool)
deriving DecidableEq, Repr

/-- Responses of `DELETE /api/v1/file/:uuid`. -/
inductive RevokeResult where
  | err (code : String) (status : Nat)
  | ok
deriving DecidableEq, Repr

/-! ### Shared key construction -/

/-- Active-record KV key, `` `file:${uuid}` ``. -/
def fileKey (uuid : String) : String := "file:" ++ uuid

/-- Pending-record KV key, `` `pending:${uuid}` ``. -/
def pendingKey (uuid : String) : String := "pending:" ++ uuid

/-- JS `a || b` on strings: `b` when `a` is falsy (empty). -/
def jsOr (a b : String) : String := if a = "" then b else a

/-! ### POST /api/v1/upload/init (index.ts lines 23-80) -/

/-- `POST /api/v1/upload/init`.  `body = none` is a JSON parse failure
(the `.catch(() => null)`); `fileUUID` is the value `generateUUID()`
returned; `now` is `Math.floor(Date.now() / 1000)`. -/
def uploadInit (env : EnvCfg) (st : Stores) (body : Option UploadInitRequest)
    (fileUUID : String) (now : Int) (digest : List Nat → List Nat) :
    Outcome InitResult :=
  match body with
  | none => ⟨.err "INVALID_REQUEST" 400, st, []⟩
  | some b =>
    if b.filename = "" ∨ b.size = 0 then
      ⟨.err "INVALID_REQUEST" 400, st, []⟩
    else if b.size > env.max_file_size then
      ⟨.err "FILE_TOO_LARGE" 413, st, []⟩
    else
      let r2Key := "uploads/" ++ fileUUID ++ "/" ++ b.filename
      let expiresIn :=
        match b.expires_in with
        | some e => if e > 0 then e else env.default_file_ttl
        | none => env.default_file_ttl
      let expiresAt := now + expiresIn
      let passwordHash :=
        match b.password with
        | some p => if p.length > 0 then some (hashPassword digest p) else none
        | none => none
      let metadata : FileMetadata :=
        { filename := b.filename
          size := b.size
          mime := match b.mime with
                  | some m => if m = "" then "application/octet-stream" else m
                  | none => "application/octet-stream"
          uploaded_at := now
          expires_at := expiresAt
          downloads_left := match b.max_downloads with
                            | some d => if d > 0 then some d else none
                            | none => none
          password_hash := passwordHash
          r2_key := r2Key }
      let kvKey := pendingKey fileUUID
      let uploadUrl := env.base_url ++ "/api/v1/upload/put/" ++ fileUUID
        ++ "?expires=" ++ toString (now + env.presigned_url_ttl)
      ⟨.ok uploadUrl fileUUID expiresAt,
        { st with kv := kvInsert st.kv kvKey metadata },
        [.kvPut kvKey metadata 900]⟩

/-! ### POST /api/v1/upload/finalize (index.ts lines 125-177) -/

/-- `POST /api/v1/upload/finalize`.  `body = none` covers both a JSON
parse failure and a missing `file_uuid` field (`!body.file_uuid` is also
true for the empty string, checked explicitly). -/
def uploadFinalize (env : EnvCfg) (st : Stores) (body : Option String)
    (now : Int) : Outcome FinalizeResult :=
  match body with
  | none => ⟨.err "INVALID_REQUEST" 400, st, []⟩
  | some file_uuid =>
    if file_uuid = "" then ⟨.err "INVALID_REQUEST" 400, st, []⟩
    else
      let pKey := pendingKey file_uuid
      match kvLookup st.kv pKey with
      | none => ⟨.err "NOT_FOUND" 404, st, []⟩
      | some metadata0 =>
        match r2Head st.r2 metadata0.r2_key with
        | none => ⟨.err "FILE_MISSING" 404, st, []⟩
        | some observedSize =>
          let metadata := { metadata0 with size := observedSize }
          let ttl := metadata.expires_at - now
          if ttl ≤ 0 then ⟨.err "EXPIRED" 410, st, []⟩
          else
            let activeKey := fileKey file_uuid
            ⟨.ok (env.base_url ++ "/d/" ++ file_uuid),
              { st with kv := kvErase (kvInsert st.kv activeKey metadata) pKey },
              [.kvPut activeKey metadata ttl, .kvDelete pKey]⟩

/-! ### GET /api/v1/file/:uuid/info (index.ts lines 180-199) -/

/-- `GET /api/v1/file/:uuid/info`.  A pure read: no store mutation and no
look at the clock. -/
def fileInfo (st : Stores) (uuid : String) : InfoResult :=
  match kvLookup st.kv (fileKey uuid) with
  | none => .err "NOT_FOUND" 404
  | some m =>
    .ok { filename := m.filename
          size := m.size
          mime := m.mime
          uploaded_at := m.uploaded_at
          expires_at := m.expires_at
          downloads_left := m.downloads_left
          has_password := m.password_hash.isSome }

/-! ### GET /api/v1/file/:uuid/download (index.ts lines 202-278) -/

/-- `metadata.downloads_left !== null && metadata.downloads_left <= 0`,
used both for the limit gate (line 221) and, after the decrement, for
`isLastDownload` (line 245). -/
def downloadsExhausted (m : FileMetadata) : Bool :=
  match m.downloads_left with
  | some d => d ≤ 0
  | none => false

/-- Lines 240-277 of the download handler: the part after all gates have
passed — decrement, conditional KV rewrite, R2 fetch, terminal cleanup,
stream.  Split out so the gate structure of `consume` stays readable. -/
def consumeServe (st : Stores) (kvKey : String) (metadata : FileMetadata)
    (now : Int) : Outcome DlResult :=
  let m' := match metadata.downloads_left with
            | some d => { metadata with downloads_left := some (d - 1) }
            | none => metadata
  let isLast := downloadsExhausted m'
  let upd :=
    if !isLast && m'.downloads_left.isSome then
      let ttl := metadata.expires_at - now
      if ttl > 0 then
        (({ st with kv := kvInsert st.kv kvKey m' } : Stores),
          [StoreOp.kvPut kvKey m' ttl])
      else (st, ([] : List StoreOp))
    else (st, ([] : List StoreOp))
  match r2Head upd.1.r2 metadata.r2_key with
  | none =>
    ⟨.err "FILE_MISSING" 404,
      { upd.1 with kv := kvErase upd.1.kv kvKey },
      upd.2 ++ [.kvDelete kvKey]⟩
  | some _ =>
    if isLast then
      ⟨.file m'.filename m'.size m'.mime true,
        { kv := kvErase upd.1.kv kvKey, r2 := r2Erase upd.1.r2 metadata.r2_key },
        upd.2 ++ [.kvDelete kvKey, .r2Delete metadata.r2_key]⟩
    else
      ⟨.file m'.filename m'.size m'.mime false, upd.1, upd.2⟩

/-- `GET /api/v1/file/:uuid/download?password=...` (`Consume`).  `qpw`
and `hpw` are the `password` query parameter and `X-File-Password`
header; the handler resolves them as `query || header || ""`.  The
deferred R2 delete of the final download (`executionCtx.waitUntil`) is
modelled as the last operation of the trace, applied to the post-state. -/
def consume (st : Stores) (uuid : String) (qpw hpw : Option String)
    (now : Int) (digest : List Nat → List Nat) : Outcome DlResult :=
  let kvKey := fileKey uuid
  match kvLookup st.kv kvKey with
  | none => ⟨.err "NOT_FOUND" 404, st, []⟩
  | some metadata =>
    if now > metadata.expires_at then
      ⟨.err "EXPIRED" 410,
        { st with kv := kvErase st.kv kvKey }, [.kvDelete kvKey]⟩
    else if downloadsExhausted metadata then
      ⟨.err "LIMIT_REACHED" 410,
        { kv := kvErase st.kv kvKey, r2 := r2Erase st.r2 metadata.r2_key },
        [.kvDelete kvKey, .r2Delete metadata.r2_key]⟩
    else
      match metadata.password_hash with
      | some storedHash =>
        let password := jsOr (jsOr (qpw.getD "") (hpw.getD "")) ""
        if password = "" then ⟨.err "PASSWORD_REQUIRED" 401, st, []⟩
        else if verifyPassword digest password storedHash then
          consumeServe st kvKey metadata now
        else ⟨.err "INVALID_PASSWORD" 403, st, []⟩
      | none => consumeServe st kvKey metadata now

/-! ### DELETE /api/v1/file/:uuid (index.ts lines 289-307) -/

/-- `DELETE /api/v1/file/:uuid` (`Revoke`): 404 if no active record,
otherwise delete the blob and the record (`Promise.all`, listed in
source order). -/
def revokeFile (st : Stores) (uuid : String) : Outcome RevokeResult :=
  let kvKey := fileKey uuid
  match kvLookup st.kv kvKey with
  | none => ⟨.err "NOT_FOUND" 404, st, []⟩
  | some metadata =>
    ⟨.ok,
      { kv := kvErase st.kv kvKey, r2 := r2Erase st.r2 metadata.r2_key },
      [.r2Delete metadata.r2_key, .kvDelete kvKey]⟩

/-! ### Store lemmas -/

theorem kvLookup_kvInsert_self (s : KVStore) (k : String) (v : FileMetadata) :
    kvLookup (kvInsert s k v) k = some v := by
  simp [kvInsert, kvLookup]

theorem kvLookup_kvErase_self (s : KVStore) (k : String) :
    kvLookup (kvErase s k) k = none := by
  induction s with
  | nil => rfl
  | cons p rest ih =>
    by_cases h : p.1 = k
    · simpa [kvErase, List.filter_cons, h] using ih
    · simpa [kvErase, List.filter_cons, h, kvLookup] using ih

/-! ### Characterizations of the download handler -/

/-- The serve phase can only answer with the streamed file or
`FILE_MISSING`; in particular it never produces a password error. -/
theorem consumeServe_not_password_err (st : Stores) (kvKey : String)
    (m : FileMetadata) (now : Int) :
    (consumeServe st kvKey m now).result ≠ DlResult.err "PASSWORD_REQUIRED" 401
    ∧ (consumeServe st kvKey m now).result ≠ DlResult.err "INVALID_PASSWORD" 403 := by
  constructor <;>
  · simp only [consumeServe]
    split
    · simp
    · split <;> simp

/-- One non-final download on a live, password-free record with at least
two downloads remaining: the decremented record is written back and the
blob survives. -/
theorem consume_step_nonfinal (st : Stores) (uuid : String) (now : Int)
    (digest : List Nat → List Nat) (m : FileMetadata) (n : Int)
    (hm : kvLookup st.kv (fileKey uuid) = some m)
    (hdl : m.downloads_left = some n)
    (hpw : m.password_hash = none)
    (hn : 2 ≤ n)
    (hexp : now < m.expires_at)
    (sz : Int)
    (hblob : r2Head st.r2 m.r2_key = some sz) :
    consume st uuid none none now digest =
      ⟨DlResult.file m.filename m.size m.mime false,
        { st with kv := kvInsert st.kv (fileKey uuid) { m with downloads_left := some (n - 1) } },
        [StoreOp.kvPut (fileKey uuid) { m with downloads_left := some (n - 1) }
          (m.expires_at - now)]⟩ := by
  have h1 : ¬ now > m.expires_at := by omega
  have h2 : ¬ (n ≤ 0) := by omega
  have h3 : ¬ (n - 1 ≤ 0) := by omega
  have h4 : m.expires_at - now > 0 := by omega
  simp [consume, consumeServe, downloadsExhausted, hm, hdl, hpw, h1, h2, h3, h4, hblob]

/-- The final download on a live, password-free record with exactly one
download remaining: the metadata record and the blob are deleted. -/
theorem consume_step_final (st : Stores) (uuid : String) (now : Int)
    (digest : List Nat → List Nat) (m : FileMetadata)
    (hm : kvLookup st.kv (fileKey uuid) = some m)
    (hdl : m.downloads_left = some 1)
    (hpw : m.password_hash = none)
    (hexp : now < m.expires_at)
    (sz : Int)
    (hblob : r2Head st.r2 m.r2_key = some sz) :
    consume st uuid none none now digest =
      ⟨DlResult.file m.filename m.size m.mime true,
        ⟨kvErase st.kv (fileKey uuid), r2Erase st.r2 m.r2_key⟩,
        [StoreOp.kvDelete (fileKey uuid), StoreOp.r2Delete m.r2_key]⟩ := by
  have h1 : ¬ now > m.expires_at := by omega
  simp [consume, consumeServe, downloadsExhausted, hm, hdl, hpw, h1, hblob]

/-! ### Iterated downloads -/

/-- `k` sequential calls of the download handler for the same id (no
password supplied), each acting on the stores the previous call left
behind, collecting the results in order. -/
def consumeRun (k : Nat) (st : Stores) (uuid : String) (now : Int)
    (digest : List Nat → List Nat) : List DlResult × Stores :=
  match k with
  | 0 => ([], st)
  | k + 1 =>
    let o := consume st uuid none none now digest
    let rest := consumeRun k o.stores uuid now digest
    (o.result :: rest.1, rest.2)

/-- Helper for the induction: with `downloadsRemaining = N ≥ 1`, no
password, a live record and a present blob, `N + 1` sequential download
calls produce `N - 1` non-final successes, one final success, then
`NOT_FOUND`. -/
theorem consumeRun_limit (N : Nat) (st : Stores) (uuid : String) (now : Int)
    (digest : List Nat → List Nat) (m : FileMetadata)
    (hm : kvLookup st.kv (fileKey uuid) = some m)
    (hdl : m.downloads_left = some (N : Int))
    (hN : 1 ≤ N)
    (hpw : m.password_hash = none)
    (hexp : now < m.expires_at)
    (hblob : (r2Head st.r2 m.r2_key).isSome) :
    (consumeRun (N + 1) st uuid now digest).1 =
      List.replicate (N - 1) (DlResult.file m.filename m.size m.mime false)
        ++ [DlResult.file m.filename m.size m.mime true,
            DlResult.err "NOT_FOUND" 404] := by
  induction N generalizing st m with
  | zero => omega
  | succ k ih =>
    obtain ⟨sz, hsz⟩ := Option.isSome_iff_exists.mp hblob
    by_cases hk : k = 0
    · subst hk
      have hd1 : m.downloads_left = some 1 := by simpa using hdl
      have hfin := consume_step_final st uuid now digest m hm hd1 hpw hexp sz hsz
      simp only [consumeRun, hfin]
      have hgone : kvLookup (kvErase st.kv (fileKey uuid)) (fileKey uuid) = none :=
        kvLookup_kvErase_self st.kv (fileKey uuid)
      simp [consume, hgone, List.replicate]
    · have hcast : ((k + 1 : Nat) : Int) - 1 = (k : Int) := by push_cast; ring
      have hstep := consume_step_nonfinal st uuid now digest m ((k + 1 : Nat) : Int)
        hm hdl hpw (by omega) hexp sz hsz
      rw [hcast] at hstep
      simp only [consumeRun, hstep]
      have hih := ih { st with kv := kvInsert st.kv (fileKey uuid) { m with downloads_left := some (k : Int) } }
        { m with downloads_left := some (k : Int) }
        (kvLookup_kvInsert_self _ _ _) rfl (by omega) hpw hexp (by simpa using hblob)
      simp only [consumeRun] at hih ⊢
      rw [hih]
      have hrep : k = (k - 1) + 1 := by omega
      rw [show List.replicate (k + 1 - 1) (DlResult.file m.filename m.size m.mime false)
            = DlResult.file m.filename m.size m.mime false
              :: List.replicate (k - 1) (DlResult.file m.filename m.size m.mime false) by
        rw [show k + 1 - 1 = (k - 1) + 1 by omega, List.replicate_succ]]
      simp

/-! ### Concrete fixtures for counterexamples and witnesses -/

/-- A concrete digest instantiating the abstract SHA-256 parameter. -/
def idDigest : List Nat → List Nat := fun l => l

/-- A concrete environment. -/
def envTest : EnvCfg :=
  { base_url := "http://b", presigned_url_ttl := 60,
    default_file_ttl := 3600, max_file_size := 1000 }

/-- An active record with one download remaining and no password. -/
def recOne : FileMetadata :=
  { filename := "a.txt", size := 10, mime := "text/plain", uploaded_at := 100,
    expires_at := 200, downloads_left := some 1, password_hash := none,
    r2_key := "uploads/x/a.txt" }

/-- The same record with two downloads remaining. -/
def recTwo : FileMetadata := { recOne with downloads_left := some 2 }

/-- Stores holding `recOne` as the active record for id `x`, blob present. -/
def storesOne : Stores :=
  { kv := [(fileKey "x", recOne)], r2 := [("uploads/x/a.txt", 10)] }

/-- Stores holding `recTwo` as the active record for id `x`, blob present. -/
def storesTwo : Stores :=
  { kv := [(fileKey "x", recTwo)], r2 := [("uploads/x/a.txt", 10)] }

/-- Stores holding `recOne` as a pending record for id `x`, blob present
with observed size 12. -/
def storesPending : Stores :=
  { kv := [(pendingKey "x", recOne)], r2 := [("uploads/x/a.txt", 12)] }

/-- Empty stores. -/
def storesEmpty : Stores := { kv := [], r2 := [] }

/-! ### Claim C1 -/

/-- C1, counterexample to the claim as stated: for the record with
`downloadsRemaining = 1`, no password, the single allowed download
succeeds with `isFinalDownload = true`, but the second call fails
`NOT_FOUND` — not `LIMIT_REACHED` — because the final download already
deleted the metadata record (index.ts line 265). -/
theorem consume_after_final_is_not_limit_reached :
    (consume storesOne "x" none none 150 idDigest).result
        = DlResult.file "a.txt" 10 "text/plain" true
    ∧ (consume (consume storesOne "x" none none 150 idDigest).stores
          "x" none none 150 idDigest).result
        ≠ DlResult.err "LIMIT_REACHED" 410
    ∧ (consume (consume storesOne "x" none none 150 idDigest).stores
          "x" none none 150 idDigest).result
        = DlResult.err "NOT_FOUND" 404 := by decide

/-- **C1 (amended)**: for an active record with `downloadsRemaining = N`
(N ≥ 1), no password, before expiry and with the blob present, `N`
sequential `Consume` calls all succeed, every call before the `N`th
reports `isFinalDownload = false`, the `N`th reports `true`, and the
`(N+1)`th fails `NOT_FOUND` (the final call deletes the metadata
record, so the record is simply absent afterwards). -/
theorem consume_run_limit_sequence (N : Nat) (st : Stores) (uuid : String)
    (now : Int) (digest : List Nat → List Nat) (m : FileMetadata)
    (hm : kvLookup st.kv (fileKey uuid) = some m)
    (hdl : m.downloads_left = some (N : Int))
    (hN : 1 ≤ N)
    (hpw : m.password_hash = none)
    (hexp : now < m.expires_at)
    (hblob : (r2Head st.r2 m.r2_key).isSome) :
    (consumeRun (N + 1) st uuid now digest).1 =
      List.replicate (N - 1) (DlResult.file m.filename m.size m.mime false)
        ++ [DlResult.file m.filename m.size m.mime true,
            DlResult.err "NOT_FOUND" 404] :=
  consumeRun_limit N st uuid now digest m hm hdl hN hpw hexp hblob

/-- C1 witness: the amended claim evaluated at `N = 2` on concrete
stores. -/
theorem consume_run_limit_sequence_witness :
    (consumeRun 3 storesTwo "x" 150 idDigest).1 =
      List.replicate 1 (DlResult.file "a.txt" 10 "text/plain" false)
        ++ [DlResult.file "a.txt" 10 "text/plain" true,
            DlResult.err "NOT_FOUND" 404] :=
  consume_run_limit_sequence 2 storesTwo "x" 150 idDigest recTwo
    (by decide) (by decide) (by decide) (by decide) (by decide) (by decide)

/-! ### Claim C3 -/

/-- C3, counterexample to the claim as stated: a `BeginUpload` request
with a strictly negative `declaredSize` (`size = -1`) is not rejected —
JS `!body.size` only catches `0` — and a pending record is written. -/
theorem uploadInit_negative_size_accepted :
    (uploadInit envTest storesEmpty (some { filename := "a.txt", size := -1 })
        "u1" 100 idDigest).result
      ≠ InitResult.err "INVALID_REQUEST" 400
    ∧ (uploadInit envTest storesEmpty (some { filename := "a.txt", size := -1 })
        "u1" 100 idDigest).ops ≠ [] := by decide

/-- **C3 (amended)**: a `BeginUpload` request whose body is missing or
whose filename is empty or whose `declaredSize` is zero fails
`INVALID_REQUEST` (HTTP 400) and performs no store write; a strictly
negative `declaredSize` is not rejected by this check. -/
theorem uploadInit_invalid_request (env : EnvCfg) (st : Stores)
    (body : Option UploadInitRequest) (fileUUID : String) (now : Int)
    (digest : List Nat → List Nat)
    (h : body = none ∨ ∃ b, body = some b ∧ (b.filename = "" ∨ b.size = 0)) :
    uploadInit env st body fileUUID now digest =
      ⟨InitResult.err "INVALID_REQUEST" 400, st, []⟩ := by
  rcases h with h | ⟨b, hb, hfs⟩
  · simp [uploadInit, h]
  · subst hb
    simp [uploadInit, hfs]

/-- C3 witness: the amended claim evaluated on a request with an empty
filename. -/
theorem uploadInit_invalid_request_witness :
    uploadInit envTest storesEmpty (some { filename := "", size := 10 })
        "u1" 100 idDigest =
      ⟨InitResult.err "INVALID_REQUEST" 400, storesEmpty, []⟩ :=
  uploadInit_invalid_request envTest storesEmpty
    (some { filename := "", size := 10 }) "u1" 100 idDigest
    (Or.inr ⟨_, rfl, Or.inl rfl⟩)

/-! ### Claim C4 -/

/-- C4, counterexample to the claim as stated: `Revoke` is not
idempotent — the first call on an existing active record succeeds, but
the second call returns the `NOT_FOUND` error (HTTP 404) instead of
succeeding with `deleted = false`. -/
theorem revoke_second_call_errors :
    (revokeFile storesOne "x").result = RevokeResult.ok
    ∧ (revokeFile (revokeFile storesOne "x").stores "x").result
        = RevokeResult.err "NOT_FOUND" 404 := by decide

/-- **C4 (amended)**: `Revoke` on an existing active record deletes the
blob and the metadata record and succeeds; a second `Revoke` for the
same id fails `NOT_FOUND` (HTTP 404) rather than succeeding with a
`deleted = false` indication. -/
theorem revoke_then_revoke (st : Stores) (uuid : String) (m : FileMetadata)
    (hm : kvLookup st.kv (fileKey uuid) = some m) :
    revokeFile st uuid =
      ⟨RevokeResult.ok, ⟨kvErase st.kv (fileKey uuid), r2Erase st.r2 m.r2_key⟩,
        [StoreOp.r2Delete m.r2_key, StoreOp.kvDelete (fileKey uuid)]⟩
    ∧ (revokeFile (revokeFile st uuid).stores uuid).result
        = RevokeResult.err "NOT_FOUND" 404 := by
  have h1 : revokeFile st uuid =
      ⟨RevokeResult.ok, ⟨kvErase st.kv (fileKey uuid), r2Erase st.r2 m.r2_key⟩,
        [StoreOp.r2Delete m.r2_key, StoreOp.kvDelete (fileKey uuid)]⟩ := by
    simp [revokeFile, hm]
  refine ⟨h1, ?_⟩
  rw [h1]
  simp [revokeFile, kvLookup_kvErase_self]

/-- C4 witness: the amended claim evaluated on the concrete one-record
stores. -/
theorem revoke_then_revoke_witness :
    revokeFile storesOne "x" =
      ⟨RevokeResult.ok,
        ⟨kvErase storesOne.kv (fileKey "x"), r2Erase storesOne.r2 recOne.r2_key⟩,
        [StoreOp.r2Delete recOne.r2_key, StoreOp.kvDelete (fileKey "x")]⟩
    ∧ (revokeFile (revokeFile storesOne "x").stores "x").result
        = RevokeResult.err "NOT_FOUND" 404 :=
  revoke_then_revoke storesOne "x" recOne (by decide)

/-! ### Claim C2 -/

/-- **C2**: the download handler's gates fire in short-circuit order —
absent record fails `NOT_FOUND`; then `now > expiresAt` deletes the
metadata record and fails `EXPIRED`; then `downloadsRemaining ≤ 0`
deletes the metadata record and the blob and fails `LIMIT_REACHED`; a
password error can only arise once all three of those gates have
passed.  The cleanup deletions are in the issued-operation trace and
already applied to the post-state handed back with the error. -/
theorem consume_gate_order (st : Stores) (uuid : String) (qpw hpw : Option String)
    (now : Int) (digest : List Nat → List Nat) :
    (kvLookup st.kv (fileKey uuid) = none →
      consume st uuid qpw hpw now digest = ⟨DlResult.err "NOT_FOUND" 404, st, []⟩)
    ∧ (∀ m, kvLookup st.kv (fileKey uuid) = some m → now > m.expires_at →
      consume st uuid qpw hpw now digest =
        ⟨DlResult.err "EXPIRED" 410,
          { st with kv := kvErase st.kv (fileKey uuid) },
          [StoreOp.kvDelete (fileKey uuid)]⟩)
    ∧ (∀ m d, kvLookup st.kv (fileKey uuid) = some m → ¬ now > m.expires_at →
      m.downloads_left = some d → d ≤ 0 →
      consume st uuid qpw hpw now digest =
        ⟨DlResult.err "LIMIT_REACHED" 410,
          ⟨kvErase st.kv (fileKey uuid), r2Erase st.r2 m.r2_key⟩,
          [StoreOp.kvDelete (fileKey uuid), StoreOp.r2Delete m.r2_key]⟩)
    ∧ (∀ m, kvLookup st.kv (fileKey uuid) = some m →
      ((consume st uuid qpw hpw now digest).result = DlResult.err "PASSWORD_REQUIRED" 401
        ∨ (consume st uuid qpw hpw now digest).result = DlResult.err "INVALID_PASSWORD" 403) →
      ¬ now > m.expires_at ∧ downloadsExhausted m = false ∧ m.password_hash.isSome = true) := by
  refine ⟨?_, ?_, ?_, ?_⟩
  · intro h
    simp [consume, h]
  · intro m hm hgt
    simp [consume, hm, hgt]
  · intro m d hm hle hdl hd0
    have hex : downloadsExhausted m = true := by
      simp [downloadsExhausted, hdl, hd0]
    simp [consume, hm, hle, hex]
  · intro m hm hres
    by_cases hgt : now > m.expires_at
    · have : consume st uuid qpw hpw now digest =
          ⟨DlResult.err "EXPIRED" 410,
            { st with kv := kvErase st.kv (fileKey uuid) },
            [StoreOp.kvDelete (fileKey uuid)]⟩ := by
        simp [consume, hm, hgt]
      rw [this] at hres
      simp at hres
    · cases hex : downloadsExhausted m with
      | true =>
        have : consume st uuid qpw hpw now digest =
            ⟨DlResult.err "LIMIT_REACHED" 410,
              ⟨kvErase st.kv (fileKey uuid), r2Erase st.r2 m.r2_key⟩,
              [StoreOp.kvDelete (fileKey uuid), StoreOp.r2Delete m.r2_key]⟩ := by
          simp [consume, hm, hgt, hex]
        rw [this] at hres
        simp at hres
      | false =>
        refine ⟨hgt, rfl, ?_⟩
        rcases hph : m.password_hash with _ | ph
        · exfalso
          have hred : consume st uuid qpw hpw now digest =
              consumeServe st (fileKey uuid) m now := by
            simp [consume, hm, hgt, hex, hph]
          rw [hred] at hres
          rcases hres with hres | hres
          · exact (consumeServe_not_password_err st (fileKey uuid) m now).1 hres
          · exact (consumeServe_not_password_err st (fileKey uuid) m now).2 hres
        · simp

/-- C2 witness: the expiry gate evaluated on a concrete expired record
(`now = 300 > expiresAt = 200`). -/
theorem consume_gate_order_witness :
    consume storesOne "x" none none 300 idDigest =
      ⟨DlResult.err "EXPIRED" 410,
        { storesOne with kv := kvErase storesOne.kv (fileKey "x") },
        [StoreOp.kvDelete (fileKey "x")]⟩ :=
  (consume_gate_order storesOne "x" none none 300 idDigest).2.1 recOne
    (by decide) (by decide)

/-! ### Claim C5 -/

/-- **C5**: on an active record with `downloadsRemaining = n`, any
successful non-final download strictly before expiry persists the
record with `downloadsRemaining = n - 1`, and the persisted value is
never negative. -/
theorem consume_nonfinal_persists_decrement (st : Stores) (uuid : String)
    (qpw hpw : Option String) (now : Int) (digest : List Nat → List Nat)
    (m : FileMetadata) (n : Int) (fn : String) (sz : Int) (mi : String)
    (hm : kvLookup st.kv (fileKey uuid) = some m)
    (hdl : m.downloads_left = some n)
    (hexp : now < m.expires_at)
    (hres : (consume st uuid qpw hpw now digest).result = DlResult.file fn sz mi false) :
    kvLookup (consume st uuid qpw hpw now digest).stores.kv (fileKey uuid)
      = some { m with downloads_left := some (n - 1) }
    ∧ 0 ≤ n - 1 := by
  have hgt : ¬ now > m.expires_at := by omega
  cases hex : downloadsExhausted m with
  | true =>
    exfalso
    have : consume st uuid qpw hpw now digest =
        ⟨DlResult.err "LIMIT_REACHED" 410,
          ⟨kvErase st.kv (fileKey uuid), r2Erase st.r2 m.r2_key⟩,
          [StoreOp.kvDelete (fileKey uuid), StoreOp.r2Delete m.r2_key]⟩ := by
      simp [consume, hm, hgt, hex]
    rw [this] at hres
    simp at hres
  | false =>
    have hn1 : ¬ (n ≤ 0) := by
      intro hc
      rw [downloadsExhausted, hdl] at hex
      simp [hc] at hex
    have hserve : ∀ hred : consume st uuid qpw hpw now digest =
        consumeServe st (fileKey uuid) m now,
        kvLookup (consume st uuid qpw hpw now digest).stores.kv (fileKey uuid)
          = some { m with downloads_left := some (n - 1) } := by
      intro hred
      rw [hred] at hres ⊢
      cases hlast : downloadsExhausted { m with downloads_left := some (n - 1) } with
      | true =>
        exfalso
        rcases hrh : r2Head st.r2 m.r2_key with _ | s
        · have : (consumeServe st (fileKey uuid) m now).result
              = DlResult.err "FILE_MISSING" 404 := by
            simp [consumeServe, hdl, hlast, hrh]
          rw [this] at hres
          simp at hres
        · have : (consumeServe st (fileKey uuid) m now).result
              = DlResult.file m.filename m.size m.mime true := by
            simp [consumeServe, hdl, hlast, hrh]
          rw [this] at hres
          simp at hres
      | false =>
        have httl : m.expires_at - now > 0 := by omega
        rcases hrh : r2Head st.r2 m.r2_key with _ | s
        · exfalso
          have : (consumeServe st (fileKey uuid) m now).result
              = DlResult.err "FILE_MISSING" 404 := by
            simp [consumeServe, hdl, hlast, httl, hrh]
          rw [this] at hres
          simp at hres
        · have : (consumeServe st (fileKey uuid) m now).stores.kv
              = kvInsert st.kv (fileKey uuid) { m with downloads_left := some (n - 1) } := by
            simp [consumeServe, hdl, hlast, httl, hrh]
          rw [this, kvLookup_kvInsert_self]
    rcases hph : m.password_hash with _ | ph
    · have hred : consume st uuid qpw hpw now digest =
          consumeServe st (fileKey uuid) m now := by
        simp [consume, hm, hgt, hex, hph]
      have hfin := hserve hred
      rw [hph] at hfin
      exact ⟨hfin, by omega⟩
    · by_cases hpw0 : jsOr (jsOr ((qpw.getD "")) ((hpw.getD ""))) "" = ""
      · exfalso
        have : consume st uuid qpw hpw now digest =
            ⟨DlResult.err "PASSWORD_REQUIRED" 401, st, []⟩ := by
          simp [consume, hm, hgt, hex, hph, hpw0]
        rw [this] at hres
        simp at hres
      · by_cases hv : verifyPassword digest (jsOr (jsOr ((qpw.getD "")) ((hpw.getD ""))) "") ph = true
        · have hred : consume st uuid qpw hpw now digest =
              consumeServe st (fileKey uuid) m now := by
            simp [consume, hm, hgt, hex, hph, hpw0, hv]
          have hfin := hserve hred
          rw [hph] at hfin
          exact ⟨hfin, by omega⟩
        · exfalso
          have : consume st uuid qpw hpw now digest =
              ⟨DlResult.err "INVALID_PASSWORD" 403, st, []⟩ := by
            simp [consume, hm, hgt, hex, hph, hpw0, hv]
          rw [this] at hres
          simp at hres

/-- C5 witness: a non-final download on the two-downloads record at
`now = 150` persists `downloadsRemaining = 1`. -/
theorem consume_nonfinal_persists_decrement_witness :
    kvLookup (consume storesTwo "x" none none 150 idDigest).stores.kv (fileKey "x")
      = some { recTwo with downloads_left := some (2 - 1 : Int) }
    ∧ (0 : Int) ≤ 2 - 1 :=
  consume_nonfinal_persists_decrement storesTwo "x" none none 150 idDigest
    recTwo 2 "a.txt" 10 "text/plain" (by decide) (by decide) (by decide) (by decide)

/-! ### Claim C6 -/

/-- **C6**: once the blob is present for a live pending record,
`CompleteUpload` succeeds exactly once — the first call issues the
active-record write *before* the pending-record delete (the operation
trace lists them in that order) and returns success, and a second call
fails `NOT_FOUND` because the pending record has been consumed. -/
theorem finalize_succeeds_once (env : EnvCfg) (st : Stores) (uuid : String)
    (now : Int) (m : FileMetadata) (sz : Int)
    (hne : uuid ≠ "")
    (hp : kvLookup st.kv (pendingKey uuid) = some m)
    (hblob : r2Head st.r2 m.r2_key = some sz)
    (httl : 0 < m.expires_at - now) :
    uploadFinalize env st (some uuid) now =
      ⟨FinalizeResult.ok (env.base_url ++ "/d/" ++ uuid),
        { st with kv := kvErase (kvInsert st.kv (fileKey uuid) { m with size := sz }) (pendingKey uuid) },
        [StoreOp.kvPut (fileKey uuid) { m with size := sz } (m.expires_at - now),
         StoreOp.kvDelete (pendingKey uuid)]⟩
    ∧ (uploadFinalize env (uploadFinalize env st (some uuid) now).stores
        (some uuid) now).result = FinalizeResult.err "NOT_FOUND" 404 := by
  have hle : ¬ (m.expires_at - now ≤ 0) := by omega
  have h1 : uploadFinalize env st (some uuid) now =
      ⟨FinalizeResult.ok (env.base_url ++ "/d/" ++ uuid),
        { st with kv := kvErase (kvInsert st.kv (fileKey uuid) { m with size := sz }) (pendingKey uuid) },
        [StoreOp.kvPut (fileKey uuid) { m with size := sz } (m.expires_at - now),
         StoreOp.kvDelete (pendingKey uuid)]⟩ := by
    simp [uploadFinalize, hne, hp, hblob, hle]
  refine ⟨h1, ?_⟩
  rw [h1]
  simp [uploadFinalize, hne, kvLookup_kvErase_self]

/-- C6 witness: finalize the concrete pending record at `now = 150`
(observed blob size 12), then finalize again. -/
theorem finalize_succeeds_once_witness :
    uploadFinalize envTest storesPending (some "x") 150 =
      ⟨FinalizeResult.ok (envTest.base_url ++ "/d/" ++ "x"),
        { storesPending with kv := kvErase (kvInsert storesPending.kv (fileKey "x") { recOne with size := 12 }) (pendingKey "x") },
        [StoreOp.kvPut (fileKey "x") { recOne with size := 12 } (recOne.expires_at - 150),
         StoreOp.kvDelete (pendingKey "x")]⟩
    ∧ (uploadFinalize envTest (uploadFinalize envTest storesPending (some "x") 150).stores
        (some "x") 150).result = FinalizeResult.err "NOT_FOUND" 404 :=
  finalize_succeeds_once envTest storesPending "x" 150 recOne 12
    (by decide) (by decide) (by decide) (by decide)

/-! ### Claim C7 -/

/-- **C7**: for an existing pending record whose blob-store probe
(`R2_BUCKET.head`) reports absence, `CompleteUpload` fails with the
error the spec names `UploadIncomplete` (the handler's machine code
`FILE_MISSING`, HTTP 404) and performs no store write at all — in
particular no active record is written. -/
theorem finalize_blob_absent (env : EnvCfg) (st : Stores) (uuid : String)
    (now : Int) (m : FileMetadata)
    (hne : uuid ≠ "")
    (hp : kvLookup st.kv (pendingKey uuid) = some m)
    (hblob : r2Head st.r2 m.r2_key = none) :
    uploadFinalize env st (some uuid) now =
      ⟨FinalizeResult.err "FILE_MISSING" 404, st, []⟩ := by
  simp [uploadFinalize, hne, hp, hblob]

/-- C7 witness: a pending record with an empty blob store. -/
theorem finalize_blob_absent_witness :
    uploadFinalize envTest { kv := [(pendingKey "x", recOne)], r2 := [] } (some "x") 150 =
      ⟨FinalizeResult.err "FILE_MISSING" 404, { kv := [(pendingKey "x", recOne)], r2 := [] }, []⟩ :=
  finalize_blob_absent envTest { kv := [(pendingKey "x", recOne)], r2 := [] }
    "x" 150 recOne (by decide) (by decide) (by decide)

/-! ### Claim C9 -/

/-- **C9**: `GetSummary` performs no expiry check of its own — for any
record still present under its active key, it returns the full public
view (filename, size, mime, uploaded_at, expires_at, downloads_left,
has_password) even at a time `now` strictly past `expires_at`, instead
of reporting `NOT_FOUND`.  (The handler never reads the clock, so the
conclusion holds for every `now`; the hypothesis `now > expires_at`
pins the claimed case.) -/
theorem fileInfo_serves_logically_expired (st : Stores) (uuid : String)
    (now : Int) (m : FileMetadata)
    (hm : kvLookup st.kv (fileKey uuid) = some m)
    (hexp : now > m.expires_at) :
    fileInfo st uuid =
      InfoResult.ok
        { filename := m.filename, size := m.size, mime := m.mime,
          uploaded_at := m.uploaded_at, expires_at := m.expires_at,
          downloads_left := m.downloads_left,
          has_password := m.password_hash.isSome } := by
  simp [fileInfo, hm]

/-- C9 witness: the summary of the concrete record at `now = 300`, past
its `expires_at = 200`. -/
theorem fileInfo_serves_logically_expired_witness :
    fileInfo storesOne "x" =
      InfoResult.ok
        { filename := recOne.filename, size := recOne.size, mime := recOne.mime,
          uploaded_at := recOne.uploaded_at, expires_at := recOne.expires_at,
          downloads_left := recOne.downloads_left,
          has_password := recOne.password_hash.isSome } :=
  fileInfo_serves_logically_expired storesOne "x" 300 recOne (by decide) (by decide)

/-! ### Claim C10 -/

/-- **C10**: hash/verify round trip — for every digest primitive and
password `p`, `verifyPassword p (hashPassword p)` is `true`; for every
stored hash `h`, `verifyPassword p h` is `true` iff `hashPassword p = h`;
consequently a download request carrying the original (non-empty)
password of a record whose `passwordHash` was computed from it never
fails the password gate (`PASSWORD_REQUIRED` / `INVALID_PASSWORD`). -/
theorem hashPassword_verifyPassword_round_trip (digest : List Nat → List Nat)
    (p h : String) :
    verifyPassword digest p (hashPassword digest p) = true
    ∧ (verifyPassword digest p h = true ↔ hashPassword digest p = h)
    ∧ (∀ st uuid now m, kvLookup st.kv (fileKey uuid) = some m →
        m.password_hash = some (hashPassword digest p) → p ≠ "" →
        (consume st uuid (some p) none now digest).result
            ≠ DlResult.err "PASSWORD_REQUIRED" 401
        ∧ (consume st uuid (some p) none now digest).result
            ≠ DlResult.err "INVALID_PASSWORD" 403) := by
  refine ⟨by simp [verifyPassword], by simp [verifyPassword], ?_⟩
  intro st uuid now m hm hph hp0
  by_cases hgt : now > m.expires_at
  · have : consume st uuid (some p) none now digest =
        ⟨DlResult.err "EXPIRED" 410,
          { st with kv := kvErase st.kv (fileKey uuid) },
          [StoreOp.kvDelete (fileKey uuid)]⟩ := by
      simp [consume, hm, hgt]
    rw [this]
    simp
  · cases hex : downloadsExhausted m with
    | true =>
      have : consume st uuid (some p) none now digest =
          ⟨DlResult.err "LIMIT_REACHED" 410,
            ⟨kvErase st.kv (fileKey uuid), r2Erase st.r2 m.r2_key⟩,
            [StoreOp.kvDelete (fileKey uuid), StoreOp.r2Delete m.r2_key]⟩ := by
        simp [consume, hm, hgt, hex]
      rw [this]
      simp
    | false =>
      have hvp : verifyPassword digest p (hashPassword digest p) = true := by
        simp [verifyPassword]
      have hred : consume st uuid (some p) none now digest =
          consumeServe st (fileKey uuid) m now := by
        simp [consume, hm, hgt, hex, hph, jsOr, hp0, hvp]
      rw [hred]
      exact consumeServe_not_password_err st (fileKey uuid) m now

/-- An active record protected by the password `"a"` hashed with the
concrete digest. -/
def recPw : FileMetadata :=
  { recOne with password_hash := some (hashPassword idDigest "a") }

/-- Stores holding `recPw` as the active record for id `x`. -/
def storesPw : Stores :=
  { kv := [(fileKey "x", recPw)], r2 := [("uploads/x/a.txt", 10)] }

/-- C10 witness: the round trip and the password gate evaluated with the
concrete digest, password `"a"` and the concrete protected record. -/
theorem hashPassword_verifyPassword_round_trip_witness :
    verifyPassword idDigest "a" (hashPassword idDigest "a") = true
    ∧ (consume storesPw "x" (some "a") none 150 idDigest).result
        ≠ DlResult.err "INVALID_PASSWORD" 403 :=
  ⟨(hashPassword_verifyPassword_round_trip idDigest "a" "61").1,
    ((hashPassword_verifyPassword_round_trip idDigest "a" "61").2.2
      storesPw "x" 150 recPw (by decide) rfl (by decide)).2⟩
